import Mathlib

/-!
Verification of the stochastic supply-evolution engine of
`src/simulation/monte_carlo.py` (Proof-of-Action Monte Carlo simulation).

Embedding conventions:
* Machine floats become real numbers `ℝ`.
* The module-level constants of the Python file (`T_STEPS`, `K_MAX_USERS`,
  `r_GROWTH_RATE`, `t0_INFLECTION`, `mu_MINT`, `sigma_MINT`, `mu_BURN_INITIAL`,
  `sigma_BURN`, `ALPHA_ADAPTATION`, `S0_INITIAL_SUPPLY`, `R0_INITIAL_REWARD`)
  are gathered into a `SimulationConfig` record so that statements can range
  over configurations; the repository's own constant values instantiate it.
* `np.random.seed(seed)` followed by draws of `np.random.normal(loc, scale, n)`
  is modelled by an abstract family `gauss : ℕ → ℕ → ℝ` where `gauss seed i`
  is the i-th standard-normal variate produced after seeding with `seed`;
  a normal draw with parameters `(μ, σ)` is `μ + σ * gauss seed i`
  (numpy's location-scale construction; with `σ = 0` the draw is exactly `μ`).
  Draws are consumed sequentially, so a running index is threaded through
  the periods: mint draws of period t come first, then burn draws of period t.
* Python's `int(n_t)` truncates toward zero; the population `n_t` is
  nonnegative for the configurations of interest, so it is modelled by the
  natural floor `⌊n_t⌋₊` (which agrees with truncation on nonnegative reals).
* `np.maximum(0, x)` elementwise is `max 0 x`.
-/

noncomputable section

/-- The simulation parameters (module constants of `monte_carlo.py`,
generalized to a record as in the spec's `SimulationConfig`). -/
structure SimulationConfig where
  horizon : ℕ
  K : ℝ
  r : ℝ
  t0 : ℝ
  mu_mint : ℝ
  sigma_mint : ℝ
  mu_burn0 : ℝ
  sigma_burn : ℝ
  alpha : ℝ
  S0 : ℝ
  R0 : ℝ

/-- `logistic_growth(t, K, r, t0) = K / (1 + exp(-r (t - t0)))`
(lines 47-52 of `monte_carlo.py`). -/
def logistic_growth (t K r t0 : ℝ) : ℝ :=
  K / (1 + Real.exp (-r * (t - t0)))

/-- The user series `users[t]` of `simulate_single_run`
(line 62-63: `users = [logistic_growth(t, K, r, t0) for t in time]`). -/
def usersAt (cfg : SimulationConfig) (t : ℕ) : ℝ :=
  logistic_growth t cfg.K cfg.r cfg.t0

/-- Per-user mint samples of one period (line 77:
`np.maximum(0, np.random.normal(mu_MINT, sigma_MINT, int(n_t)))`);
`g` is the standard-normal stream, `idx` the number of variates consumed
so far. -/
def mint_per_user (cfg : SimulationConfig) (g : ℕ → ℝ) (idx : ℕ) (n_t : ℝ) :
    List ℝ :=
  (List.range ⌊n_t⌋₊).map fun i => max 0 (cfg.mu_mint + cfg.sigma_mint * g (idx + i))

/-- The adaptive burn mean (line 82:
`mu_BURN_INITIAL * (1 + ALPHA_ADAPTATION * (supply[t-1] / (n_t + 1)))`),
computed with the un-truncated real-valued `n_t`. -/
def mu_burn_adaptive (cfg : SimulationConfig) (S_prev n_t : ℝ) : ℝ :=
  cfg.mu_burn0 * (1 + cfg.alpha * (S_prev / (n_t + 1)))

/-- Per-user burn samples of one period (line 83:
`np.maximum(0, np.random.normal(mu_burn_adaptive, sigma_BURN, int(n_t)))`). -/
def burn_per_user (cfg : SimulationConfig) (g : ℕ → ℝ) (idx : ℕ)
    (S_prev n_t : ℝ) : List ℝ :=
  (List.range ⌊n_t⌋₊).map fun i =>
    max 0 (mu_burn_adaptive cfg S_prev n_t + cfg.sigma_burn * g (idx + i))

/-- The per-period mutable state of the loop body of `simulate_single_run`
(supply, the period's totals, the period's reward, and the number of
standard-normal variates consumed so far). -/
structure PeriodState where
  supply : ℝ
  mint_total : ℝ
  burn_total : ℝ
  reward : ℝ
  idx : ℕ

/-- One iteration of the loop `for t in range(1, T_STEPS)` of
`simulate_single_run` (lines 73-99): draw `int(n_t)` clamped mint samples,
compute the adaptive burn mean, draw `int(n_t)` clamped burn samples,
update the supply with a floor at 0, and set the reward coefficient
`R0 * (B_t / M_t)` when `M_t > 0`, else `R0`. -/
def period_step (cfg : SimulationConfig) (g : ℕ → ℝ) (prev : PeriodState)
    (n_t : ℝ) : PeriodState :=
  let count := ⌊n_t⌋₊
  let mints := mint_per_user cfg g prev.idx n_t
  let M_t := mints.sum
  let burns := burn_per_user cfg g (prev.idx + count) prev.supply n_t
  let B_t := burns.sum
  let S_t := max 0 (prev.supply + M_t - B_t)
  let R_t := if 0 < M_t then cfg.R0 * (B_t / M_t) else cfg.R0
  ⟨S_t, M_t, B_t, R_t, prev.idx + count + count⟩

/-- The loop of `simulate_single_run` unrolled: state after period `t`.
Period 0 is the initial state (`supply[0] = S0`, `rewards` initialized to
`R0`, `mint_total[0] = burn_total[0] = 0`, no variates consumed). -/
def run_state (cfg : SimulationConfig) (g : ℕ → ℝ) : ℕ → PeriodState
  | 0 => ⟨cfg.S0, 0, 0, cfg.R0, 0⟩
  | t + 1 => period_step cfg g (run_state cfg g t) (usersAt cfg (t + 1))

/-- The tuple returned by `simulate_single_run` (line 101:
`return time, supply, users, mint_total, burn_total, rewards`), as
per-period series. -/
structure Trajectory where
  time : ℕ → ℕ
  supply : ℕ → ℝ
  users : ℕ → ℝ
  mint_total : ℕ → ℝ
  burn_total : ℕ → ℝ
  rewards : ℕ → ℝ

/-- `simulate_single_run(seed)` (lines 54-101): seed the random source,
compute the deterministic user series, and advance the period loop. -/
def simulate_single_run (cfg : SimulationConfig) (gauss : ℕ → ℕ → ℝ)
    (seed : ℕ) : Trajectory :=
  { time := fun t => t
    supply := fun t => (run_state cfg (gauss seed) t).supply
    users := fun t => usersAt cfg t
    mint_total := fun t => (run_state cfg (gauss seed) t).mint_total
    burn_total := fun t => (run_state cfg (gauss seed) t).burn_total
    rewards := fun t => (run_state cfg (gauss seed) t).reward }

/-- `np.mean` over one axis slice: sum divided by length. -/
def list_mean (xs : List ℝ) : ℝ := xs.sum / xs.length

/-- `np.std` (population standard deviation, the numpy default `ddof=0`):
square root of the mean squared deviation from the mean. -/
def list_std (xs : List ℝ) : ℝ :=
  Real.sqrt ((xs.map fun x => (x - list_mean xs) ^ 2).sum / xs.length)

/-- `np.percentile(xs, q)` with numpy's default linear interpolation
between order statistics: sort ascending, take the virtual index
`h = q/100 * (n-1)`, and interpolate linearly between the order statistics
at `⌊h⌋` and `⌊h⌋ + 1`. -/
def list_percentile (q : ℝ) (xs : List ℝ) : ℝ :=
  let s := List.insertionSort (· ≤ ·) xs
  let h := q / 100 * ((xs.length : ℝ) - 1)
  let lo := ⌊h⌋₊
  s.getD lo 0 + (h - (lo : ℝ)) * (s.getD (lo + 1) (s.getD lo 0) - s.getD lo 0)

/-- The cross-run statistics computed by `run_monte_carlo`
(lines 127-132): per-period mean/std/5th/95th percentile of supply and
mean reward coefficient. -/
structure AggregateStatistics where
  mean_supply : ℕ → ℝ
  std_supply : ℕ → ℝ
  percentile_5 : ℕ → ℝ
  percentile_95 : ℕ → ℝ
  mean_reward : ℕ → ℝ

/-- The statistics fold over a collection of trajectories. -/
def aggregate (ts : List Trajectory) : AggregateStatistics :=
  { mean_supply := fun t => list_mean (ts.map fun τ => τ.supply t)
    std_supply := fun t => list_std (ts.map fun τ => τ.supply t)
    percentile_5 := fun t => list_percentile 5 (ts.map fun τ => τ.supply t)
    percentile_95 := fun t => list_percentile 95 (ts.map fun τ => τ.supply t)
    mean_reward := fun t => list_mean (ts.map fun τ => τ.rewards t) }

/-- Ways the top-level operation can fail. `configurationError` is the
spec's name for an eager invalid-config rejection; the source of
`run_monte_carlo` contains no validation that could produce it.
`emptyDataError` models `np.percentile` raising on an empty run set. -/
inductive MCError where
  | configurationError : MCError
  | emptyDataError : MCError
deriving DecidableEq

/-- The run loop of `run_monte_carlo` (lines 119-124): run `n` simulations
with `seed = i` for `i = 0, …, n-1`. -/
def mc_trajectories (cfg : SimulationConfig) (gauss : ℕ → ℕ → ℝ) (n : ℕ) :
    List Trajectory :=
  (List.range n).map fun i => simulate_single_run cfg gauss i

/-- `run_monte_carlo()` (lines 103-141), generalized over the run count:
no validation is performed; the run loop executes, then the statistics are
computed — on an empty run set `np.percentile` raises, modelled as
`emptyDataError`. -/
def run_monte_carlo (cfg : SimulationConfig) (gauss : ℕ → ℕ → ℝ) (n : ℕ) :
    Except MCError (List Trajectory × AggregateStatistics) :=
  let ts := mc_trajectories cfg gauss n
  if ts.isEmpty then Except.error MCError.emptyDataError
  else Except.ok (ts, aggregate ts)

/-- Scenario A configuration of the spec: `horizon=12, K=1000, r=0.1, t0=6,
μ_mint=10, σ_mint=0, μ_burn0=2, σ_burn=0, α=0, S0=0, R0=1`. -/
def cfgA : SimulationConfig :=
  ⟨12, 1000, 0.1, 6, 10, 0, 2, 0, 0, 0, 1⟩

/-- A tiny-capacity configuration whose period-1 population rounds to zero
(`K = 1/2`), used to exercise the zero-population edge case. -/
def cfgC : SimulationConfig :=
  ⟨12, 1/2, 1, 0, 10, 3, 2, 1, 1/10, 0, 1⟩

/-- A concrete standard-normal stream family (all draws 0) used to
instantiate universally quantified statements. -/
def gauss0 : ℕ → ℕ → ℝ := fun _ _ => 0

/-- A concrete constant trajectory, for instantiating statements about
collections of trajectories. -/
def trajW1 : Trajectory :=
  ⟨fun t => t, fun _ => 1, fun _ => 2, fun _ => 3, fun _ => 4, fun _ => 5⟩

/-- A second concrete constant trajectory. -/
def trajW2 : Trajectory :=
  ⟨fun t => t, fun _ => 6, fun _ => 7, fun _ => 8, fun _ => 9, fun _ => 10⟩

/-- Summing a constant over `List.range k` gives `k * c`. -/
theorem sum_range_map_const (c : ℝ) (k : ℕ) :
    ((List.range k).map fun _ => c).sum = k * c := by
  induction k with
  | zero => simp
  | succ n ih =>
    rw [List.range_succ, List.map_append, List.sum_append, ih]
    push_cast
    simp only [List.map_cons, List.map_nil, List.sum_cons, List.sum_nil]
    ring

/-- Every clamped mint sample is nonnegative, hence so is their sum. -/
theorem mint_per_user_sum_nonneg (cfg : SimulationConfig) (g : ℕ → ℝ)
    (idx : ℕ) (n_t : ℝ) : 0 ≤ (mint_per_user cfg g idx n_t).sum := by
  apply List.sum_nonneg
  intro x hx
  simp only [mint_per_user, List.mem_map, List.mem_range] at hx
  obtain ⟨i, -, rfl⟩ := hx
  exact le_max_left _ _

/-- Every clamped burn sample is nonnegative, hence so is their sum. -/
theorem burn_per_user_sum_nonneg (cfg : SimulationConfig) (g : ℕ → ℝ)
    (idx : ℕ) (S_prev n_t : ℝ) : 0 ≤ (burn_per_user cfg g idx S_prev n_t).sum := by
  apply List.sum_nonneg
  intro x hx
  simp only [burn_per_user, List.mem_map, List.mem_range] at hx
  obtain ⟨i, -, rfl⟩ := hx
  exact le_max_left _ _

/-- C7: the growth model computes `userCount(t) = K / (1 + exp(-r (t - t0)))`
as a total function of real `t`, is nonnegative, is monotonically
non-decreasing in `t` for `r > 0` (and nonnegative capacity), and satisfies
`userCount(t0) = K / 2` exactly. -/
theorem logistic_growth_properties (K r t0 : ℝ) (hK : 0 ≤ K) (hr : 0 < r) :
    (∀ t : ℝ, logistic_growth t K r t0 = K / (1 + Real.exp (-r * (t - t0)))) ∧
    (∀ t : ℝ, 0 ≤ logistic_growth t K r t0) ∧
    (∀ t1 t2 : ℝ, t1 < t2 →
      logistic_growth t1 K r t0 ≤ logistic_growth t2 K r t0) ∧
    logistic_growth t0 K r t0 = K / 2 := by
  refine ⟨fun t => rfl, fun t => ?_, fun t1 t2 h => ?_, ?_⟩
  · exact div_nonneg hK (by positivity)
  · unfold logistic_growth
    have hexp : Real.exp (-r * (t2 - t0)) ≤ Real.exp (-r * (t1 - t0)) :=
      Real.exp_le_exp.mpr (by nlinarith)
    gcongr
  · unfold logistic_growth
    rw [sub_self, mul_zero, Real.exp_zero]
    norm_num

/-- Witness for C7 at `K = 1`, `r = 1`, `t0 = 0`. -/
theorem logistic_growth_properties_witness :
    (0 : ℝ) ≤ 1 ∧ (0 : ℝ) < 1 ∧
      ((∀ t : ℝ, logistic_growth t 1 1 0 = 1 / (1 + Real.exp (-1 * (t - 0)))) ∧
       (∀ t : ℝ, 0 ≤ logistic_growth t 1 1 0) ∧
       (∀ t1 t2 : ℝ, t1 < t2 →
         logistic_growth t1 1 1 0 ≤ logistic_growth t2 1 1 0) ∧
       logistic_growth 0 1 1 0 = 1 / 2) :=
  ⟨zero_le_one, zero_lt_one, logistic_growth_properties 1 1 0 zero_le_one zero_lt_one⟩

/-- C5: two invocations of the single-run simulation with identical
configuration and identical seed produce identical trajectories, in every
component of the returned tuple. -/
theorem simulate_single_run_reproducible (cfg cfg2 : SimulationConfig)
    (gauss : ℕ → ℕ → ℝ) (seed seed2 : ℕ) (hc : cfg = cfg2) (hs : seed = seed2) :
    (∀ t, (simulate_single_run cfg gauss seed).time t =
      (simulate_single_run cfg2 gauss seed2).time t) ∧
    (∀ t, (simulate_single_run cfg gauss seed).supply t =
      (simulate_single_run cfg2 gauss seed2).supply t) ∧
    (∀ t, (simulate_single_run cfg gauss seed).users t =
      (simulate_single_run cfg2 gauss seed2).users t) ∧
    (∀ t, (simulate_single_run cfg gauss seed).mint_total t =
      (simulate_single_run cfg2 gauss seed2).mint_total t) ∧
    (∀ t, (simulate_single_run cfg gauss seed).burn_total t =
      (simulate_single_run cfg2 gauss seed2).burn_total t) ∧
    (∀ t, (simulate_single_run cfg gauss seed).rewards t =
      (simulate_single_run cfg2 gauss seed2).rewards t) := by
  subst hc
  subst hs
  exact ⟨fun t => rfl, fun t => rfl, fun t => rfl, fun t => rfl,
    fun t => rfl, fun t => rfl⟩

/-- Witness for C5 at the Scenario A configuration and seed 0. -/
theorem simulate_single_run_reproducible_witness :
    cfgA = cfgA ∧ (0 : ℕ) = 0 ∧
      ((∀ t, (simulate_single_run cfgA gauss0 0).time t =
        (simulate_single_run cfgA gauss0 0).time t) ∧
      (∀ t, (simulate_single_run cfgA gauss0 0).supply t =
        (simulate_single_run cfgA gauss0 0).supply t) ∧
      (∀ t, (simulate_single_run cfgA gauss0 0).users t =
        (simulate_single_run cfgA gauss0 0).users t) ∧
      (∀ t, (simulate_single_run cfgA gauss0 0).mint_total t =
        (simulate_single_run cfgA gauss0 0).mint_total t) ∧
      (∀ t, (simulate_single_run cfgA gauss0 0).burn_total t =
        (simulate_single_run cfgA gauss0 0).burn_total t) ∧
      (∀ t, (simulate_single_run cfgA gauss0 0).rewards t =
        (simulate_single_run cfgA gauss0 0).rewards t)) :=
  ⟨rfl, rfl, simulate_single_run_reproducible cfgA cfgA gauss0 0 0 rfl rfl⟩

/-- C9: the user series of a run does not depend on the random source or
the seed, and equals the logistic formula at every period, including 0. -/
theorem users_seed_independent (cfg : SimulationConfig)
    (gauss gauss2 : ℕ → ℕ → ℝ) (seed seed2 : ℕ) :
    (∀ t, (simulate_single_run cfg gauss seed).users t =
      (simulate_single_run cfg gauss2 seed2).users t) ∧
    (∀ t : ℕ, (simulate_single_run cfg gauss seed).users t =
      logistic_growth t cfg.K cfg.r cfg.t0) :=
  ⟨fun _ => rfl, fun _ => rfl⟩

/-- C2: for every period `t ≥ 1` the reward coefficient is
`R0 * (B_t / M_t)` when `M_t > 0` and `R0` when `M_t = 0` (no division is
performed in that branch), and `B_t = M_t > 0` yields exactly `R0`. -/
theorem reward_coefficient_formula (cfg : SimulationConfig)
    (gauss : ℕ → ℕ → ℝ) (seed t : ℕ) :
    ((simulate_single_run cfg gauss seed).rewards (t + 1) =
      if 0 < (simulate_single_run cfg gauss seed).mint_total (t + 1) then
        cfg.R0 * ((simulate_single_run cfg gauss seed).burn_total (t + 1) /
          (simulate_single_run cfg gauss seed).mint_total (t + 1))
      else cfg.R0) ∧
    ((simulate_single_run cfg gauss seed).mint_total (t + 1) = 0 →
      (simulate_single_run cfg gauss seed).rewards (t + 1) = cfg.R0) ∧
    ((simulate_single_run cfg gauss seed).burn_total (t + 1) =
        (simulate_single_run cfg gauss seed).mint_total (t + 1) →
      0 < (simulate_single_run cfg gauss seed).mint_total (t + 1) →
      (simulate_single_run cfg gauss seed).rewards (t + 1) = cfg.R0) := by
  have hr : (simulate_single_run cfg gauss seed).rewards (t + 1) =
      if 0 < (simulate_single_run cfg gauss seed).mint_total (t + 1) then
        cfg.R0 * ((simulate_single_run cfg gauss seed).burn_total (t + 1) /
          (simulate_single_run cfg gauss seed).mint_total (t + 1))
      else cfg.R0 := rfl
  refine ⟨hr, fun h0 => ?_, fun hbm hpos => ?_⟩
  · rw [hr, h0]
    simp
  · rw [hr, if_pos hpos, hbm, div_self (ne_of_gt hpos), mul_one]

/-- Witness for C2: the reward formula at the Scenario A configuration,
seed 0, period 1. -/
theorem reward_coefficient_formula_witness :
    ((simulate_single_run cfgA gauss0 0).rewards 1 =
      if 0 < (simulate_single_run cfgA gauss0 0).mint_total 1 then
        cfgA.R0 * ((simulate_single_run cfgA gauss0 0).burn_total 1 /
          (simulate_single_run cfgA gauss0 0).mint_total 1)
      else cfgA.R0) ∧
    ((simulate_single_run cfgA gauss0 0).mint_total 1 = 0 →
      (simulate_single_run cfgA gauss0 0).rewards 1 = cfgA.R0) ∧
    ((simulate_single_run cfgA gauss0 0).burn_total 1 =
        (simulate_single_run cfgA gauss0 0).mint_total 1 →
      0 < (simulate_single_run cfgA gauss0 0).mint_total 1 →
      (simulate_single_run cfgA gauss0 0).rewards 1 = cfgA.R0) :=
  reward_coefficient_formula cfgA gauss0 0 0

/-- C10: in every period `t ≥ 1` the mint and burn sample lists each have
exactly `⌊n_t⌋₊` entries (the truncated population), while the adaptive
burn mean divides by `n_t + 1` with the un-truncated real `n_t`. -/
theorem truncated_count_untruncated_mean (cfg : SimulationConfig)
    (gauss : ℕ → ℕ → ℝ) (seed t : ℕ) :
    ((simulate_single_run cfg gauss seed).mint_total (t + 1) =
      (mint_per_user cfg (gauss seed) (run_state cfg (gauss seed) t).idx
        (usersAt cfg (t + 1))).sum) ∧
    ((mint_per_user cfg (gauss seed) (run_state cfg (gauss seed) t).idx
        (usersAt cfg (t + 1))).length = ⌊usersAt cfg (t + 1)⌋₊) ∧
    ((simulate_single_run cfg gauss seed).burn_total (t + 1) =
      (burn_per_user cfg (gauss seed)
        ((run_state cfg (gauss seed) t).idx + ⌊usersAt cfg (t + 1)⌋₊)
        ((simulate_single_run cfg gauss seed).supply t)
        (usersAt cfg (t + 1))).sum) ∧
    ((burn_per_user cfg (gauss seed)
        ((run_state cfg (gauss seed) t).idx + ⌊usersAt cfg (t + 1)⌋₊)
        ((simulate_single_run cfg gauss seed).supply t)
        (usersAt cfg (t + 1))).length = ⌊usersAt cfg (t + 1)⌋₊) ∧
    (∀ S n : ℝ, mu_burn_adaptive cfg S n =
      cfg.mu_burn0 * (1 + cfg.alpha * (S / (n + 1)))) := by
  refine ⟨rfl, ?_, rfl, ?_, fun S n => rfl⟩
  · simp [mint_per_user]
  · simp [burn_per_user]

/-- C1: in every run, every period's mint total, burn total, and supply
are nonnegative, for every configuration with nonnegative initial supply
(the repository's `S0_INITIAL_SUPPLY` is 0), every seed, and every random
stream; and whenever the burn total exceeds the previous supply plus the
mint total, the supply is floored at exactly 0. -/
theorem mint_burn_supply_nonneg (cfg : SimulationConfig) (gauss : ℕ → ℕ → ℝ)
    (seed : ℕ) (hS0 : 0 ≤ cfg.S0) :
    (∀ t, 0 ≤ (simulate_single_run cfg gauss seed).mint_total t ∧
      0 ≤ (simulate_single_run cfg gauss seed).burn_total t ∧
      0 ≤ (simulate_single_run cfg gauss seed).supply t) ∧
    (∀ t, (simulate_single_run cfg gauss seed).supply t +
        (simulate_single_run cfg gauss seed).mint_total (t + 1) <
        (simulate_single_run cfg gauss seed).burn_total (t + 1) →
      (simulate_single_run cfg gauss seed).supply (t + 1) = 0) := by
  constructor
  · intro t
    match t with
    | 0 => exact ⟨le_refl 0, le_refl 0, hS0⟩
    | n + 1 =>
      refine ⟨?_, ?_, ?_⟩
      · exact mint_per_user_sum_nonneg cfg (gauss seed) _ _
      · exact burn_per_user_sum_nonneg cfg (gauss seed) _ _ _
      · exact le_max_left 0 _
  · intro t h
    have hstep : (simulate_single_run cfg gauss seed).supply (t + 1) =
        max 0 ((simulate_single_run cfg gauss seed).supply t +
          (simulate_single_run cfg gauss seed).mint_total (t + 1) -
          (simulate_single_run cfg gauss seed).burn_total (t + 1)) := rfl
    rw [hstep]
    exact max_eq_left (by linarith)

/-- Witness for C1 at the Scenario A configuration (`S0 = 0`), seed 0. -/
theorem mint_burn_supply_nonneg_witness :
    (0 : ℝ) ≤ cfgA.S0 ∧
      ((∀ t, 0 ≤ (simulate_single_run cfgA gauss0 0).mint_total t ∧
        0 ≤ (simulate_single_run cfgA gauss0 0).burn_total t ∧
        0 ≤ (simulate_single_run cfgA gauss0 0).supply t) ∧
      (∀ t, (simulate_single_run cfgA gauss0 0).supply t +
          (simulate_single_run cfgA gauss0 0).mint_total (t + 1) <
          (simulate_single_run cfgA gauss0 0).burn_total (t + 1) →
        (simulate_single_run cfgA gauss0 0).supply (t + 1) = 0)) :=
  ⟨le_refl 0, mint_burn_supply_nonneg cfgA gauss0 0 (le_refl 0)⟩

/-- C8: in every period whose population truncates to zero, the stepper
draws no samples (both per-user sample lists are empty), produces
`M_t = B_t = 0`, sets the reward to `R0`, and the adaptive-burn-mean
denominator `n_t + 1` is nonzero. -/
theorem zero_population_step (cfg : SimulationConfig) (gauss : ℕ → ℕ → ℝ)
    (seed t : ℕ) (hK : 0 ≤ cfg.K) (h0 : ⌊usersAt cfg (t + 1)⌋₊ = 0) :
    (simulate_single_run cfg gauss seed).mint_total (t + 1) = 0 ∧
    (simulate_single_run cfg gauss seed).burn_total (t + 1) = 0 ∧
    (simulate_single_run cfg gauss seed).rewards (t + 1) = cfg.R0 ∧
    mint_per_user cfg (gauss seed) (run_state cfg (gauss seed) t).idx
      (usersAt cfg (t + 1)) = [] ∧
    burn_per_user cfg (gauss seed)
      ((run_state cfg (gauss seed) t).idx + ⌊usersAt cfg (t + 1)⌋₊)
      ((simulate_single_run cfg gauss seed).supply t) (usersAt cfg (t + 1)) = [] ∧
    usersAt cfg (t + 1) + 1 ≠ 0 := by
  have hm : mint_per_user cfg (gauss seed) (run_state cfg (gauss seed) t).idx
      (usersAt cfg (t + 1)) = [] := by
    simp [mint_per_user, h0]
  have hb : burn_per_user cfg (gauss seed)
      ((run_state cfg (gauss seed) t).idx + ⌊usersAt cfg (t + 1)⌋₊)
      ((simulate_single_run cfg gauss seed).supply t)
      (usersAt cfg (t + 1)) = [] := by
    simp [burn_per_user, h0]
  have hMsum : (simulate_single_run cfg gauss seed).mint_total (t + 1) =
      (mint_per_user cfg (gauss seed) (run_state cfg (gauss seed) t).idx
        (usersAt cfg (t + 1))).sum := rfl
  have hBsum : (simulate_single_run cfg gauss seed).burn_total (t + 1) =
      (burn_per_user cfg (gauss seed)
        ((run_state cfg (gauss seed) t).idx + ⌊usersAt cfg (t + 1)⌋₊)
        ((simulate_single_run cfg gauss seed).supply t)
        (usersAt cfg (t + 1))).sum := rfl
  have hM0 : (simulate_single_run cfg gauss seed).mint_total (t + 1) = 0 := by
    rw [hMsum, hm, List.sum_nil]
  have hB0 : (simulate_single_run cfg gauss seed).burn_total (t + 1) = 0 := by
    rw [hBsum, hb, List.sum_nil]
  have hr : (simulate_single_run cfg gauss seed).rewards (t + 1) =
      if 0 < (simulate_single_run cfg gauss seed).mint_total (t + 1) then
        cfg.R0 * ((simulate_single_run cfg gauss seed).burn_total (t + 1) /
          (simulate_single_run cfg gauss seed).mint_total (t + 1))
      else cfg.R0 := rfl
  have hn : 0 ≤ usersAt cfg (t + 1) := div_nonneg hK (by positivity)
  refine ⟨hM0, hB0, ?_, hm, hb, ne_of_gt (by linarith)⟩
  rw [hr, hM0]
  simp

/-- Witness for C8 at the tiny-capacity configuration `cfgC` (whose
period-1 population is below 1), seed 0, period 1. -/
theorem zero_population_step_witness :
    (0 : ℝ) ≤ cfgC.K ∧ ⌊usersAt cfgC 1⌋₊ = 0 ∧
      ((simulate_single_run cfgC gauss0 0).mint_total 1 = 0 ∧
      (simulate_single_run cfgC gauss0 0).burn_total 1 = 0 ∧
      (simulate_single_run cfgC gauss0 0).rewards 1 = cfgC.R0 ∧
      mint_per_user cfgC (gauss0 0) (run_state cfgC (gauss0 0) 0).idx
        (usersAt cfgC 1) = [] ∧
      burn_per_user cfgC (gauss0 0)
        ((run_state cfgC (gauss0 0) 0).idx + ⌊usersAt cfgC 1⌋₊)
        ((simulate_single_run cfgC gauss0 0).supply 0) (usersAt cfgC 1) = [] ∧
      usersAt cfgC 1 + 1 ≠ 0) := by
  have hK : (0 : ℝ) ≤ cfgC.K := by norm_num [cfgC]
  have husers : usersAt cfgC 1 = (1 / 2) / (1 + Real.exp (-1)) := by
    simp only [usersAt, logistic_growth, cfgC]
    norm_num
  have h0 : ⌊usersAt cfgC 1⌋₊ = 0 := by
    apply Nat.floor_eq_zero.mpr
    rw [husers]
    rw [div_lt_one (by positivity)]
    linarith [Real.exp_pos (-1 : ℝ)]
  exact ⟨hK, h0, zero_population_step cfgC gauss0 0 0 hK h0⟩

/-- Sorting is invariant under permutation of the input. -/
theorem insertionSort_perm_eq (xs ys : List ℝ) (h : xs.Perm ys) :
    List.insertionSort (· ≤ ·) xs = List.insertionSort (· ≤ ·) ys :=
  List.eq_of_perm_of_sorted
    ((List.perm_insertionSort _ xs).trans (h.trans (List.perm_insertionSort _ ys).symm))
    (List.sorted_insertionSort _ xs) (List.sorted_insertionSort _ ys)

/-- The mean is invariant under permutation of the input. -/
theorem list_mean_perm (xs ys : List ℝ) (h : xs.Perm ys) :
    list_mean xs = list_mean ys := by
  unfold list_mean
  rw [h.sum_eq, h.length_eq]

/-- The population standard deviation is invariant under permutation. -/
theorem list_std_perm (xs ys : List ℝ) (h : xs.Perm ys) :
    list_std xs = list_std ys := by
  unfold list_std
  rw [list_mean_perm xs ys h, (h.map fun x => (x - list_mean ys) ^ 2).sum_eq,
    h.length_eq]

/-- The linearly interpolated percentile is invariant under permutation. -/
theorem list_percentile_perm (q : ℝ) (xs ys : List ℝ) (h : xs.Perm ys) :
    list_percentile q xs = list_percentile q ys := by
  unfold list_percentile
  rw [insertionSort_perm_eq xs ys h, h.length_eq]

/-- C6: the aggregate statistics (per-period mean, standard deviation,
5th and 95th linearly interpolated percentile of supply, and mean reward)
computed from any permutation of a collection of trajectories equal those
computed from the original order. -/
theorem aggregate_perm_invariant (ts ts2 : List Trajectory) (h : ts.Perm ts2) :
    ∀ t, (aggregate ts).mean_supply t = (aggregate ts2).mean_supply t ∧
      (aggregate ts).std_supply t = (aggregate ts2).std_supply t ∧
      (aggregate ts).percentile_5 t = (aggregate ts2).percentile_5 t ∧
      (aggregate ts).percentile_95 t = (aggregate ts2).percentile_95 t ∧
      (aggregate ts).mean_reward t = (aggregate ts2).mean_reward t := by
  intro t
  exact ⟨list_mean_perm _ _ (h.map _), list_std_perm _ _ (h.map _),
    list_percentile_perm _ _ _ (h.map _), list_percentile_perm _ _ _ (h.map _),
    list_mean_perm _ _ (h.map _)⟩

/-- Witness for C6 on the two-element collection `[trajW1, trajW2]` and
its swap. -/
theorem aggregate_perm_invariant_witness :
    [trajW1, trajW2].Perm [trajW2, trajW1] ∧
      (∀ t, (aggregate [trajW1, trajW2]).mean_supply t =
          (aggregate [trajW2, trajW1]).mean_supply t ∧
        (aggregate [trajW1, trajW2]).std_supply t =
          (aggregate [trajW2, trajW1]).std_supply t ∧
        (aggregate [trajW1, trajW2]).percentile_5 t =
          (aggregate [trajW2, trajW1]).percentile_5 t ∧
        (aggregate [trajW1, trajW2]).percentile_95 t =
          (aggregate [trajW2, trajW1]).percentile_95 t ∧
        (aggregate [trajW1, trajW2]).mean_reward t =
          (aggregate [trajW2, trajW1]).mean_reward t) :=
  ⟨List.Perm.swap trajW2 trajW1 [],
    aggregate_perm_invariant [trajW1, trajW2] [trajW2, trajW1]
      (List.Perm.swap trajW2 trajW1 [])⟩

/-- C4 counterexample: with `runCount = 0` the top-level operation does
not reject the request with a ConfigurationError — the run loop runs
(vacuously) and the failure is the statistics step on the empty run set. -/
theorem runCount_zero_not_configurationError :
    run_monte_carlo cfgA gauss0 0 ≠ Except.error MCError.configurationError := by
  have h : run_monte_carlo cfgA gauss0 0 = Except.error MCError.emptyDataError :=
    rfl
  rw [h]
  simp

/-- C4 (amended): `run_monte_carlo` performs no run-count validation: it
can never produce a ConfigurationError for any run count; with
`runCount = 0` the loop executes zero simulation runs and the subsequent
statistics computation fails on the empty run set (`np.percentile` raises
on empty input), after the loop rather than before it. -/
theorem run_monte_carlo_no_validation (cfg : SimulationConfig)
    (gauss : ℕ → ℕ → ℝ) :
    mc_trajectories cfg gauss 0 = [] ∧
    run_monte_carlo cfg gauss 0 = Except.error MCError.emptyDataError ∧
    ∀ n : ℕ, run_monte_carlo cfg gauss n ≠ Except.error MCError.configurationError := by
  refine ⟨rfl, rfl, fun n => ?_⟩
  unfold run_monte_carlo
  by_cases hE : (mc_trajectories cfg gauss n).isEmpty
  · simp only [hE, if_true]
    simp
  · simp only [hE]
    simp

/-- Numeric bounds on `exp(1/2)`, derived from the Mathlib bounds on
`exp 1` via `exp(1/2)^2 = exp 1`. -/
theorem exp_half_bounds : 1.648 < Real.exp 0.5 ∧ Real.exp 0.5 < 1.649 := by
  have h2 : Real.exp 0.5 * Real.exp 0.5 = Real.exp 1 := by
    rw [← Real.exp_add]
    norm_num
  have hp := Real.exp_pos (0.5 : ℝ)
  have hgt := Real.exp_one_gt_d9
  have hlt := Real.exp_one_lt_d9
  constructor
  · by_contra hcon
    push_neg at hcon
    have := mul_le_mul hcon hcon hp.le (by norm_num : (0 : ℝ) ≤ 1.648)
    nlinarith
  · by_contra hcon
    push_neg at hcon
    have := mul_le_mul hcon hcon (by norm_num : (0 : ℝ) ≤ 1.649) hp.le
    nlinarith

/-- The Scenario A period-1 population in closed form. -/
theorem usersAt_cfgA_one_eq : usersAt cfgA 1 = 1000 / (1 + Real.exp 0.5) := by
  simp only [usersAt, logistic_growth, cfgA]
  norm_num

/-- The Scenario A period-1 population lies strictly between 377 and 378
(in particular it is not an integer multiple boundary). -/
theorem usersAt_cfgA_one_bounds : 377 < usersAt cfgA 1 ∧ usersAt cfgA 1 < 378 := by
  obtain ⟨hl, hu⟩ := exp_half_bounds
  rw [usersAt_cfgA_one_eq]
  have hd : (0 : ℝ) < 1 + Real.exp 0.5 := by positivity
  constructor
  · rw [lt_div_iff₀ hd]
    linarith
  · rw [div_lt_iff₀ hd]
    linarith

/-- The truncated Scenario A period-1 population is exactly 377. -/
theorem floor_usersAt_cfgA_one : ⌊usersAt cfgA 1⌋₊ = 377 := by
  obtain ⟨hl, hu⟩ := usersAt_cfgA_one_bounds
  refine (Nat.floor_eq_iff (by linarith)).mpr ⟨?_, ?_⟩
  · push_cast
    linarith
  · push_cast
    linarith

/-- With `σ_mint = 0` every Scenario A mint sample is exactly 10, so the
period-1 mint total is `377 * 10`. -/
theorem mint_sum_cfgA (g : ℕ → ℝ) (idx : ℕ) :
    (mint_per_user cfgA g idx (usersAt cfgA 1)).sum = 3770 := by
  unfold mint_per_user
  rw [floor_usersAt_cfgA_one]
  have hfun : (fun i => max 0 (cfgA.mu_mint + cfgA.sigma_mint * g (idx + i))) =
      fun _ : ℕ => (10 : ℝ) := by
    funext i
    simp [cfgA]
  rw [hfun, sum_range_map_const]
  norm_num

/-- With `α = 0` the Scenario A adaptive burn mean is the constant 2. -/
theorem mu_burn_cfgA (S n : ℝ) : mu_burn_adaptive cfgA S n = 2 := by
  simp [mu_burn_adaptive, cfgA]

/-- With `σ_burn = 0` every Scenario A burn sample is exactly 2, so the
period-1 burn total is `377 * 2`. -/
theorem burn_sum_cfgA (g : ℕ → ℝ) (idx : ℕ) (S_prev : ℝ) :
    (burn_per_user cfgA g idx S_prev (usersAt cfgA 1)).sum = 754 := by
  unfold burn_per_user
  rw [floor_usersAt_cfgA_one]
  have hfun : (fun i => max 0 (mu_burn_adaptive cfgA S_prev (usersAt cfgA 1) +
      cfgA.sigma_burn * g (idx + i))) = fun _ : ℕ => (2 : ℝ) := by
    funext i
    rw [mu_burn_cfgA]
    simp [cfgA]
  rw [hfun, sum_range_map_const]
  norm_num

/-- Period 1 of a Scenario A run: supply is exactly `3770 - 754 = 3016`
and the reward coefficient is `1 * (2 / 10)`. -/
theorem scenarioA_period_one (gauss : ℕ → ℕ → ℝ) (seed : ℕ) :
    (simulate_single_run cfgA gauss seed).supply 1 = 3016 ∧
    (simulate_single_run cfgA gauss seed).rewards 1 = 1 * (2 / 10) := by
  have eM : (simulate_single_run cfgA gauss seed).mint_total 1 =
      (mint_per_user cfgA (gauss seed) 0 (usersAt cfgA 1)).sum := rfl
  have eB : (simulate_single_run cfgA gauss seed).burn_total 1 =
      (burn_per_user cfgA (gauss seed) (0 + ⌊usersAt cfgA 1⌋₊) 0
        (usersAt cfgA 1)).sum := rfl
  have hM : (simulate_single_run cfgA gauss seed).mint_total 1 = 3770 := by
    rw [eM, mint_sum_cfgA]
  have hB : (simulate_single_run cfgA gauss seed).burn_total 1 = 754 := by
    rw [eB, burn_sum_cfgA]
  have eS : (simulate_single_run cfgA gauss seed).supply 1 =
      max 0 ((simulate_single_run cfgA gauss seed).supply 0 +
        (simulate_single_run cfgA gauss seed).mint_total 1 -
        (simulate_single_run cfgA gauss seed).burn_total 1) := rfl
  have hS0 : (simulate_single_run cfgA gauss seed).supply 0 = 0 := rfl
  have er : (simulate_single_run cfgA gauss seed).rewards 1 =
      if 0 < (simulate_single_run cfgA gauss seed).mint_total 1 then
        cfgA.R0 * ((simulate_single_run cfgA gauss seed).burn_total 1 /
          (simulate_single_run cfgA gauss seed).mint_total 1)
      else cfgA.R0 := rfl
  constructor
  · rw [eS, hS0, hM, hB]
    rw [show (0 : ℝ) + 3770 - 754 = 3016 by norm_num]
    exact max_eq_right (by norm_num)
  · rw [er, hM, hB, if_pos (by norm_num : (0 : ℝ) < 3770)]
    show cfgA.R0 * (754 / 3770) = 1 * (2 / 10)
    norm_num [cfgA]

/-- A period step does not depend on the random stream when both standard
deviations are zero. -/
theorem period_step_sigma_zero (cfg : SimulationConfig)
    (hm : cfg.sigma_mint = 0) (hb : cfg.sigma_burn = 0) (g g2 : ℕ → ℝ)
    (prev : PeriodState) (n_t : ℝ) :
    period_step cfg g prev n_t = period_step cfg g2 prev n_t := by
  simp [period_step, mint_per_user, burn_per_user, hm, hb]

/-- The whole period loop does not depend on the random stream when both
standard deviations are zero. -/
theorem run_state_sigma_zero (cfg : SimulationConfig)
    (hm : cfg.sigma_mint = 0) (hb : cfg.sigma_burn = 0) (g g2 : ℕ → ℝ) :
    ∀ t, run_state cfg g t = run_state cfg g2 t := by
  intro t
  induction t with
  | zero => rfl
  | succ n ih =>
    show period_step cfg g (run_state cfg g n) (usersAt cfg (n + 1)) =
      period_step cfg g2 (run_state cfg g2 n) (usersAt cfg (n + 1))
    rw [ih]
    exact period_step_sigma_zero cfg hm hb g g2 _ _

/-- A zero-variance run is fully deterministic: the trajectory does not
depend on the random source or the seed. -/
theorem simulate_sigma_zero (cfg : SimulationConfig)
    (hm : cfg.sigma_mint = 0) (hb : cfg.sigma_burn = 0)
    (gauss gauss2 : ℕ → ℕ → ℝ) (seed seed2 : ℕ) :
    simulate_single_run cfg gauss seed = simulate_single_run cfg gauss2 seed2 := by
  have h := run_state_sigma_zero cfg hm hb (gauss seed) (gauss2 seed2)
  simp only [simulate_single_run, h]

/-- C3 counterexample: under the Scenario A configuration the period-1
supply is `3016 = ⌊userCount(1)⌋ * 8`, which differs from
`userCount(1) * 10 - userCount(1) * 2` for the real-valued logistic count
`userCount(1) = 1000 / (1 + exp(1/2)) ∈ (377, 378)`. -/
theorem scenarioA_claim_counterexample :
    ¬ ((simulate_single_run cfgA gauss0 0).supply 1 =
      usersAt cfgA 1 * 10 - usersAt cfgA 1 * 2) := by
  obtain ⟨hl, hu⟩ := usersAt_cfgA_one_bounds
  have hS : (simulate_single_run cfgA gauss0 0).supply 1 = 3016 :=
    (scenarioA_period_one gauss0 0).1
  intro hcontra
  rw [hS] at hcontra
  linarith

/-- C3 (amended): under the Scenario A zero-variance configuration the run
is deterministic (independent of random source and seed), period-1 supply
equals `⌊userCount(1)⌋ * 10 - ⌊userCount(1)⌋ * 2 = 3016` (the sample count
is the truncated population), and `reward[1] = 1 * (2 / 10) = 0.2`. -/
theorem scenarioA_exact (gauss gauss2 : ℕ → ℕ → ℝ) (seed seed2 : ℕ) :
    simulate_single_run cfgA gauss seed = simulate_single_run cfgA gauss2 seed2 ∧
    (simulate_single_run cfgA gauss seed).supply 1 =
      (⌊usersAt cfgA 1⌋₊ : ℝ) * 10 - (⌊usersAt cfgA 1⌋₊ : ℝ) * 2 ∧
    (simulate_single_run cfgA gauss seed).supply 1 = 3016 ∧
    (simulate_single_run cfgA gauss seed).rewards 1 = 1 * (2 / 10) := by
  obtain ⟨hS, hR⟩ := scenarioA_period_one gauss seed
  refine ⟨simulate_sigma_zero cfgA rfl rfl gauss gauss2 seed seed2, ?_, hS, hR⟩
  rw [hS, floor_usersAt_cfgA_one]
  norm_num

end

